import Mathlib

/-!
Verification of the core data layer of `metobjects_app.py`: the archive
extractor (`descompactar_database`), the exit-time cleanup
(`excluir_database`), the cached query facade (`executar_consulta` under
`st.cache_data`), and the distinct-value lookup (`obter_valores_unicos`).

The filesystem is modelled by the two paths the program touches
(`database.gz` and `metobjects.db`); the SQL engine (sqlite3 + pandas) is an
abstract function from query text to either an error or a materialized
`DataFrame`; the `st.cache_data(ttl=...)` decorator is modelled from its
documented time-to-live semantics as described in the specification, since
it is a library facility whose code is not part of this repository.
-/

namespace MetObjects

/-- A materialized tabular result: an ordered list of column names and an
ordered list of rows, mirroring the pandas DataFrame that
`pd.read_sql_query` returns (source line 163). -/
structure DataFrame where
  cols : List String
  rows : List (List String)
deriving DecidableEq, Repr

/-- `pd.DataFrame()` (source line 168): the frame with no columns and no
rows that `executar_consulta` returns when query execution raises. -/
def emptyDataFrame : DataFrame := ⟨[], []⟩

/-- The error messages the program surfaces with `st.error` (source lines
59, 68, 167). -/
inductive ErrMsg where
  | archiveNotFound
  | extractionError (e : String)
  | queryError (e : String)
deriving DecidableEq, Repr

/-- The compressed archive `database.gz` as the sequence of chunks that
`shutil.copyfileobj` streams; a `none` chunk is one whose decompression
raises (a corrupt or truncated stream). -/
abbrev Archive := List (Option String)

/-- The slice of the filesystem the program touches: the archive at
`GZIP_PATH` (= "database.gz") and the working copy at `DB_PATH`
(= "metobjects.db"), each either absent or present with its content. -/
structure FS where
  gz : Option Archive
  db : Option String
deriving DecidableEq, Repr

/-- `shutil.copyfileobj` from the gzip stream into the target (source line
55): chunks are appended in order; a corrupt chunk raises, leaving exactly
the bytes written so far in the target file. Returns the content written
and whether the copy ran to completion. -/
def copyChunks : Archive → String → String × Bool
  | [], acc => (acc, true)
  | some c :: rest, acc => copyChunks rest (acc ++ c)
  | none :: _, acc => (acc, false)

/-- Outcome of `descompactar_database`: the boolean the function returns,
the filesystem afterwards, and the error message shown, if any. -/
structure ExtractResult where
  success : Bool
  fs : FS
  err : Option ErrMsg
deriving DecidableEq, Repr

/-- `descompactar_database` (source lines 45-69): if `database.gz` exists
and `metobjects.db` does not, stream-decompress directly into
`metobjects.db` and return True; if `metobjects.db` already exists, return
True at once. A decompression failure midway is caught by the `except`
branch, which shows the error and returns False — the partially written
target file stays on disk. If `database.gz` is missing, show the not-found
error and return False. -/
def descompactar_database (fs : FS) : ExtractResult :=
  match fs.gz with
  | some arch =>
    match fs.db with
    | some _ => ⟨true, fs, none⟩
    | none =>
      let r := copyChunks arch ""
      if r.2 then ⟨true, { fs with db := some r.1 }, none⟩
      else ⟨false, { fs with db := some r.1 }, some (ErrMsg.extractionError "decompress")⟩
  | none => ⟨false, fs, some ErrMsg.archiveNotFound⟩

/-- `excluir_database` (source lines 72-86): if `metobjects.db` exists,
best-effort close any connection (failures swallowed) and `os.remove` it;
every exception is caught and printed, so the function never raises. If
the file is absent the function does nothing. -/
def excluir_database (fs : FS) : FS :=
  match fs.db with
  | some _ => { fs with db := none }
  | none => fs

/-- Whether the module-level startup code reaches the query-serving part
of the script or called `st.stop()`. -/
inductive StartupState where
  | serving
  | stopped
deriving DecidableEq, Repr

/-- The module startup guard (source lines 149-156): `st.stop()` when
`descompactar_database` returned False, then `st.stop()` again when
`metobjects.db` still does not exist; only otherwise does the script go on
to serve queries. -/
def startupGuard (fs : FS) : StartupState × FS :=
  let r := descompactar_database fs
  if r.success then
    match r.fs.db with
    | some _ => (StartupState.serving, r.fs)
    | none => (StartupState.stopped, r.fs)
  else (StartupState.stopped, r.fs)

/-- Modelled from the spec: the `st.cache_data(ttl=...)` decorator (source
line 159) is a library facility whose code is not in this repository. Per
the specification's Query Cache contract: an entry keyed by the query text
holds a result and its creation time; if a live entry exists (its age
`now - created_at` is below `ttl`) its stored result is returned without
invoking the compute function; otherwise the compute function runs
synchronously, its result is stored with the current timestamp and
returned. The final boolean reports whether the compute function ran, and
`σ` threads the compute function's side effects. -/
def getOrCompute {α σ : Type} (now ttl : Nat) (key : String) (f : σ → α × σ)
    (cache : List (String × Nat × α)) (s : σ) :
    α × List (String × Nat × α) × σ × Bool :=
  match cache.lookup key with
  | some (created, r) =>
    if now - created < ttl then (r, cache, s, false)
    else
      let rs := f s
      (rs.1, (key, now, rs.1) :: cache, rs.2, true)
  | none =>
    let rs := f s
    (rs.1, (key, now, rs.1) :: cache, rs.2, true)

/-- A live cache hit as the specification words it: the stored result of
an entry for `key` whose age `now - created_at` is strictly below `ttl`. -/
def lookupLive {α : Type} (now ttl : Nat) (key : String)
    (cache : List (String × Nat × α)) : Option α :=
  match cache.lookup key with
  | some (created, r) => if now - created < ttl then some r else none
  | none => none

/-- The body of `executar_consulta` (source lines 160-168): open a
connection (`sqlite3.connect`), run the query through the engine
(`pd.read_sql_query`), close the connection and return the frame; when the
engine raises, the `except` branch shows the error with `st.error` and
returns `pd.DataFrame()` — the connection opened before the failing call
is not closed on that path. The threaded state is the number of open
connections paired with the list of error messages displayed so far. -/
def executarConsultaBody (engine : String → Except String DataFrame)
    (query : String) (s : Nat × List ErrMsg) : DataFrame × (Nat × List ErrMsg) :=
  let conns := s.1 + 1
  match engine query with
  | Except.ok df => (df, (conns - 1, s.2))
  | Except.error e => (emptyDataFrame, (conns, s.2 ++ [ErrMsg.queryError e]))

/-- The observable outcome of one call to the cached `executar_consulta`:
the frame returned, the cache afterwards, the open-connection count, the
error messages displayed so far, and whether the body was invoked. -/
structure RunResult where
  df : DataFrame
  cache : List (String × Nat × DataFrame)
  conns : Nat
  shown : List ErrMsg
  invoked : Bool
deriving DecidableEq, Repr

/-- `executar_consulta` (source lines 159-168): the body wrapped in
`st.cache_data(ttl=3600)`. -/
def executar_consulta (engine : String → Except String DataFrame)
    (query : String) (now ttl : Nat)
    (cache : List (String × Nat × DataFrame)) (s : Nat × List ErrMsg) : RunResult :=
  let r := getOrCompute now ttl query (executarConsultaBody engine query) cache s
  ⟨r.1, r.2.1, r.2.2.1.1, r.2.2.1.2, r.2.2.2⟩

/-- SQLite evaluation of
`SELECT DISTINCT "c" FROM metobjects WHERE "c" != '' ORDER BY "c"` over
the list of values the column holds: the empty strings are filtered out,
one copy of each remaining value is kept, and the result is sorted in
ascending order. -/
def sqlDistinctNonEmptySorted (vals : List String) : List String :=
  List.insertionSort (fun a b => a.data ≤ b.data) ((vals.filter (fun v => v ≠ "")).dedup)

/-- `obter_valores_unicos` (source lines 181-188): run the
DISTINCT / WHERE != '' / ORDER BY query over the named column of the
`metobjects` table (a table is the list of its rows, each mapping a column
name to its value) and collect the first field of each fetched row. -/
def obter_valores_unicos (table : List (String → String)) (coluna : String) : List String :=
  sqlDistinctNonEmptySorted (table.map (fun row => row coluna))

/-- An engine on which every query fails, as sqlite3 behaves on a
syntactically invalid statement. -/
def failEngine : String → Except String DataFrame :=
  fun _ => Except.error "near SELCT: syntax error"

/-- A two-query engine: `"good"` legitimately returns zero rows for column
`x`, `"bad"` raises. -/
def mixedEngine : String → Except String DataFrame :=
  fun q => if q = "good" then Except.ok ⟨["x"], []⟩ else Except.error "no such column"

/-- A sample engine returning two rows in a fixed `ORDER BY` order. -/
def orderedEngine : String → Except String DataFrame :=
  fun _ => Except.ok ⟨["dept"], [["Paintings"], ["Arms"]]⟩

theorem excluir_database_db_none (fs : FS) : (excluir_database fs).db = none := by
  unfold excluir_database
  cases h : fs.db <;> simp [h]

theorem excluir_database_noop (fs : FS) (h : fs.db = none) :
    excluir_database fs = fs := by
  unfold excluir_database
  rw [h]

theorem getOrCompute_hit {α σ : Type} (now ttl : Nat) (key : String)
    (f : σ → α × σ) (cache : List (String × Nat × α)) (s : σ) (r : α)
    (h : lookupLive now ttl key cache = some r) :
    getOrCompute now ttl key f cache s = (r, cache, s, false) := by
  unfold getOrCompute
  unfold lookupLive at h
  cases hk : cache.lookup key with
  | none => rw [hk] at h; exact absurd h (by simp)
  | some p =>
    obtain ⟨created, r0⟩ := p
    rw [hk] at h
    by_cases hl : now - created < ttl
    · simp only [hl, if_true] at h ⊢
      rw [Option.some_inj] at h
      rw [h]
    · simp [hl] at h

theorem getOrCompute_miss {α σ : Type} (now ttl : Nat) (key : String)
    (f : σ → α × σ) (cache : List (String × Nat × α)) (s : σ)
    (h : lookupLive now ttl key cache = none) :
    getOrCompute now ttl key f cache s =
      ((f s).1, (key, now, (f s).1) :: cache, (f s).2, true) := by
  unfold getOrCompute
  unfold lookupLive at h
  cases hk : cache.lookup key with
  | none => simp
  | some p =>
    obtain ⟨created, r0⟩ := p
    rw [hk] at h
    by_cases hl : now - created < ttl
    · simp [hl] at h
    · simp [hl]

/-- C1: for every query text, the query layer returns the stored result of
a live (non-expired) cache entry without invoking the compute function; if
no live entry exists (none stored, or now - created_at ≥ ttl), it invokes
the compute function synchronously, stores the result with the current
timestamp, and returns that result. -/
theorem getOrCompute_contract {α σ : Type} (now ttl : Nat) (key : String)
    (f : σ → α × σ) (cache : List (String × Nat × α)) (s : σ) :
    (∀ r, lookupLive now ttl key cache = some r →
      getOrCompute now ttl key f cache s = (r, cache, s, false)) ∧
    (lookupLive now ttl key cache = none →
      getOrCompute now ttl key f cache s =
        ((f s).1, (key, now, (f s).1) :: cache, (f s).2, true)) :=
  ⟨fun r h => getOrCompute_hit now ttl key f cache s r h,
   fun h => getOrCompute_miss now ttl key f cache s h⟩

theorem getOrCompute_contract_witness :
    getOrCompute 6 10 "q" (fun s : Nat => (99, s)) [("q", 5, 42)] 0 =
      (42, [("q", 5, 42)], 0, false) :=
  (getOrCompute_contract 6 10 "q" (fun s : Nat => (99, s)) [("q", 5, 42)] 0).1 42 (by decide)

/-- C3: if the archive path does not exist, extraction reports the
archive-not-found error and returns failure, the filesystem (and in
particular the working-copy path) is unchanged, and startup halts instead
of serving queries. -/
theorem descompactar_missing_archive (fs : FS) (h : fs.gz = none) :
    descompactar_database fs = ⟨false, fs, some ErrMsg.archiveNotFound⟩ ∧
    (descompactar_database fs).fs.db = fs.db ∧
    (startupGuard fs).1 = StartupState.stopped := by
  unfold startupGuard descompactar_database
  rw [h]
  simp

theorem descompactar_missing_archive_witness :
    descompactar_database ⟨none, none⟩ =
      ⟨false, ⟨none, none⟩, some ErrMsg.archiveNotFound⟩ ∧
    (descompactar_database ⟨none, none⟩).fs.db = (FS.mk none none).db ∧
    (startupGuard ⟨none, none⟩).1 = StartupState.stopped :=
  descompactar_missing_archive ⟨none, none⟩ rfl

/-- C4 counterexample: a filesystem state in which the working-copy path
already exists but the archive is absent; `descompactar_database` checks
the archive first and returns failure, not immediate success. -/
theorem descompactar_target_exists_archive_missing :
    (FS.mk none (some "db")).db = some "db" ∧
    (descompactar_database ⟨none, some "db"⟩).success = false :=
  ⟨rfl, rfl⟩

/-- C4 amended: provided the archive file exists, extraction is
idempotent: if the working-copy path already exists it returns success
immediately without re-extracting, and whenever a call succeeds, a second
call with the same paths succeeds and leaves the working-copy content
unchanged. -/
theorem descompactar_idempotent (fs : FS) (arch : Archive)
    (hgz : fs.gz = some arch) :
    (∀ c, fs.db = some c → descompactar_database fs = ⟨true, fs, none⟩) ∧
    ((descompactar_database fs).success = true →
      descompactar_database (descompactar_database fs).fs =
        ⟨true, (descompactar_database fs).fs, none⟩) := by
  unfold descompactar_database
  rw [hgz]
  cases hdb : fs.db with
  | some c => simp [hgz, hdb]
  | none =>
    cases hk : copyChunks arch "" with
    | mk w ok =>
      cases ok <;> simp [hgz, hdb, hk]

theorem descompactar_idempotent_witness :
    descompactar_database ⟨some [some "A"], some "X"⟩ =
      ⟨true, ⟨some [some "A"], some "X"⟩, none⟩ :=
  (descompactar_idempotent ⟨some [some "A"], some "X"⟩ [some "A"] rfl).1 "X" rfl

/-- C5 counterexample: on an archive whose decompression fails after the
chunk "AB", extraction reports failure yet a partially-written file is
left at the working-copy path — the partial target is observable. -/
theorem descompactar_partial_file_on_failure :
    (descompactar_database ⟨some [some "AB", none], none⟩).success = false ∧
    (descompactar_database ⟨some [some "AB", none], none⟩).fs.db = some "AB" :=
  ⟨rfl, rfl⟩

/-- C5 amended: extraction writes directly into the target path (no
temporary name, no atomic rename): on success exactly the one target file
is created holding the full decompressed content, and when decompression
fails midway the bytes written so far remain at the target path. -/
theorem descompactar_writes_directly (arch : Archive) :
    (∀ w, copyChunks arch "" = (w, true) →
      descompactar_database ⟨some arch, none⟩ = ⟨true, ⟨some arch, some w⟩, none⟩) ∧
    (∀ w, copyChunks arch "" = (w, false) →
      descompactar_database ⟨some arch, none⟩ =
        ⟨false, ⟨some arch, some w⟩, some (ErrMsg.extractionError "decompress")⟩) := by
  constructor <;> intro w hw <;> unfold descompactar_database <;> simp [hw]

theorem descompactar_writes_directly_witness :
    descompactar_database ⟨some [some "AB"], none⟩ =
      ⟨true, ⟨some [some "AB"], some "AB"⟩, none⟩ :=
  (descompactar_writes_directly [some "AB"]).1 "AB" rfl

/-- C7: once extraction has succeeded, cleanup removes the working copy
(it is absent after the call), and a second invocation is a no-op: it
changes nothing and, like the first, never raises (every exception inside
`excluir_database` is caught). -/
theorem excluir_idempotent (fs0 : FS)
    (h : (descompactar_database fs0).success = true) :
    (excluir_database (descompactar_database fs0).fs).db = none ∧
    excluir_database (excluir_database (descompactar_database fs0).fs) =
      excluir_database (descompactar_database fs0).fs := by
  exact ⟨excluir_database_db_none _,
    excluir_database_noop _ (excluir_database_db_none _)⟩

theorem excluir_idempotent_witness :
    (excluir_database (descompactar_database ⟨some [some "A"], none⟩).fs).db = none ∧
    excluir_database (excluir_database (descompactar_database ⟨some [some "A"], none⟩).fs) =
      excluir_database (descompactar_database ⟨some [some "A"], none⟩).fs :=
  excluir_idempotent ⟨some [some "A"], none⟩ rfl

/-- C2 counterexample: on a query whose execution fails, the facade
returns the empty DataFrame — an empty result, not an error value; the
error is only displayed via `st.error`. -/
theorem executar_consulta_failure_returns_empty :
    (executar_consulta failEngine "SELCT 1" 0 3600 [] (0, [])).df = emptyDataFrame ∧
    (executar_consulta failEngine "SELCT 1" 0 3600 [] (0, [])).df.rows = [] :=
  ⟨rfl, rfl⟩

/-- C2 amended: when no live cache entry exists and execution of the query
fails, `executar_consulta` displays the error message via `st.error` and
returns the empty DataFrame (zero rows) as its value; no error value
reaches the caller. -/
theorem executar_consulta_error_displayed_empty_returned
    (engine : String → Except String DataFrame) (query e : String)
    (now ttl : Nat) (cache : List (String × Nat × DataFrame))
    (s : Nat × List ErrMsg)
    (hm : lookupLive now ttl query cache = none)
    (he : engine query = Except.error e) :
    (executar_consulta engine query now ttl cache s).df = emptyDataFrame ∧
    (executar_consulta engine query now ttl cache s).shown =
      s.2 ++ [ErrMsg.queryError e] := by
  unfold executar_consulta
  rw [getOrCompute_miss now ttl query (executarConsultaBody engine query) cache s hm]
  unfold executarConsultaBody
  rw [he]
  exact ⟨rfl, rfl⟩

theorem executar_consulta_error_displayed_empty_returned_witness :
    (executar_consulta failEngine "SELCT 1" 7 3600 [] (0, [])).df = emptyDataFrame ∧
    (executar_consulta failEngine "SELCT 1" 7 3600 [] (0, [])).shown =
      ([] : List ErrMsg) ++ [ErrMsg.queryError "near SELCT: syntax error"] :=
  executar_consulta_error_displayed_empty_returned failEngine "SELCT 1"
    "near SELCT: syntax error" 7 3600 [] (0, []) rfl rfl

/-- C6 counterexample: starting from zero open connections, running a
failing query through the compute body leaves one connection open on
return — the connection opened before the failing call is not released on
the error path. -/
theorem executarConsultaBody_leaks_connection :
    (executarConsultaBody failEngine "SELCT 1" (0, [])).2.1 = 1 := rfl

/-- C6 amended: on the success path the transient connection is closed
before return (the open-connection count is restored to its starting
value); on the error path the `except` branch returns without closing it,
leaving the count one higher. -/
theorem executarConsultaBody_connection_release
    (engine : String → Except String DataFrame) (query : String)
    (s : Nat × List ErrMsg) :
    (∀ df, engine query = Except.ok df →
      (executarConsultaBody engine query s).2.1 = s.1) ∧
    (∀ e, engine query = Except.error e →
      (executarConsultaBody engine query s).2.1 = s.1 + 1) := by
  constructor <;> intro x hx <;> unfold executarConsultaBody <;> rw [hx] <;> simp

theorem executarConsultaBody_connection_release_witness :
    (executarConsultaBody orderedEngine "SELECT dept" (5, [])).2.1 = 5 :=
  (executarConsultaBody_connection_release orderedEngine "SELECT dept" (5, [])).1
    ⟨["dept"], [["Paintings"], ["Arms"]]⟩ rfl

/-- C8: the row order the engine produced is preserved verbatim: a first
call on an empty cache (a miss) returns exactly the engine's frame, rows
in engine order, and a second call within the ttl (a hit) replays the
identical frame from the cache without invoking the body. -/
theorem executar_consulta_row_order
    (engine : String → Except String DataFrame) (query : String)
    (df : DataFrame) (ttl now now' : Nat) (s s' : Nat × List ErrMsg)
    (hok : engine query = Except.ok df) (hlive : now' - now < ttl) :
    (executar_consulta engine query now ttl [] s).df = df ∧
    (executar_consulta engine query now ttl [] s).df.rows = df.rows ∧
    (executar_consulta engine query now' ttl
      (executar_consulta engine query now ttl [] s).cache s').df = df ∧
    (executar_consulta engine query now' ttl
      (executar_consulta engine query now ttl [] s).cache s').invoked = false := by
  have hbody : executarConsultaBody engine query s = (df, (s.1 + 1 - 1, s.2)) := by
    unfold executarConsultaBody
    rw [hok]
  have e1 : executar_consulta engine query now ttl [] s =
      ⟨df, [(query, now, df)], s.1 + 1 - 1, s.2, true⟩ := by
    unfold executar_consulta
    rw [getOrCompute_miss now ttl query (executarConsultaBody engine query) [] s rfl]
    rw [hbody]
  have hhit : lookupLive now' ttl query [(query, now, df)] = some df := by
    unfold lookupLive
    simp [List.lookup, hlive]
  have e2 : executar_consulta engine query now' ttl [(query, now, df)] s' =
      ⟨df, [(query, now, df)], s'.1, s'.2, false⟩ := by
    unfold executar_consulta
    rw [getOrCompute_hit now' ttl query (executarConsultaBody engine query)
      [(query, now, df)] s' df hhit]
  rw [e1]
  exact ⟨rfl, rfl, by rw [show (RunResult.mk df [(query, now, df)] (s.1 + 1 - 1) s.2 true).cache
      = [(query, now, df)] from rfl, e2], by rw [show (RunResult.mk df [(query, now, df)]
      (s.1 + 1 - 1) s.2 true).cache = [(query, now, df)] from rfl, e2]⟩

theorem executar_consulta_row_order_witness :
    (executar_consulta orderedEngine "q" 0 3600 [] (0, [])).df =
      ⟨["dept"], [["Paintings"], ["Arms"]]⟩ ∧
    (executar_consulta orderedEngine "q" 0 3600 [] (0, [])).df.rows =
      [["Paintings"], ["Arms"]] ∧
    (executar_consulta orderedEngine "q" 1 3600
      (executar_consulta orderedEngine "q" 0 3600 [] (0, [])).cache (0, [])).df =
      ⟨["dept"], [["Paintings"], ["Arms"]]⟩ ∧
    (executar_consulta orderedEngine "q" 1 3600
      (executar_consulta orderedEngine "q" 0 3600 [] (0, [])).cache (0, [])).invoked =
      false :=
  executar_consulta_row_order orderedEngine "q" ⟨["dept"], [["Paintings"], ["Arms"]]⟩
    3600 0 1 (0, []) (0, []) rfl (by decide)

/-- C9 counterexample: with `mixedEngine`, the failing query "bad" returns
the empty frame (no columns) while the legitimately empty query "good"
returns a frame that carries its column name; both have zero rows, yet the
two returned values differ — a failure is distinguishable at the interface
from a query that legitimately returned no rows. -/
theorem executar_consulta_failure_distinguishable :
    (executar_consulta mixedEngine "bad" 0 3600 [] (0, [])).df.rows = [] ∧
    (executar_consulta mixedEngine "good" 0 3600 [] (0, [])).df.rows = [] ∧
    (executar_consulta mixedEngine "bad" 0 3600 [] (0, [])).df ≠
      (executar_consulta mixedEngine "good" 0 3600 [] (0, [])).df := by
  refine ⟨rfl, rfl, ?_⟩
  decide

/-- C9 amended: `executar_consulta` never propagates an exception — the
body catches every execution failure — and on such a failure (no live
cache entry, engine raises) it returns the empty DataFrame, which has zero
rows like a legitimately empty result but also zero columns, while a
legitimate result carries its column names. -/
theorem executar_consulta_total_empty_on_failure
    (engine : String → Except String DataFrame) (query e : String)
    (now ttl : Nat) (cache : List (String × Nat × DataFrame))
    (s : Nat × List ErrMsg)
    (hm : lookupLive now ttl query cache = none)
    (he : engine query = Except.error e) :
    (executar_consulta engine query now ttl cache s).df = emptyDataFrame ∧
    (executar_consulta engine query now ttl cache s).df.rows = [] ∧
    (executar_consulta engine query now ttl cache s).df.cols = [] := by
  unfold executar_consulta
  rw [getOrCompute_miss now ttl query (executarConsultaBody engine query) cache s hm]
  unfold executarConsultaBody
  rw [he]
  exact ⟨rfl, rfl, rfl⟩

theorem executar_consulta_total_empty_on_failure_witness :
    (executar_consulta mixedEngine "bad" 3 3600 [] (0, [])).df = emptyDataFrame ∧
    (executar_consulta mixedEngine "bad" 3 3600 [] (0, [])).df.rows = [] ∧
    (executar_consulta mixedEngine "bad" 3 3600 [] (0, [])).df.cols = [] :=
  executar_consulta_total_empty_on_failure mixedEngine "bad" "no such column"
    3 3600 [] (0, []) rfl rfl

/-- C10: for every table and column, the list `obter_valores_unicos`
returns holds pairwise-distinct values, contains only values occurring in
that column, contains no empty value, and is sorted in ascending order. -/
theorem obter_valores_unicos_spec (table : List (String → String)) (coluna : String) :
    (obter_valores_unicos table coluna).Nodup ∧
    obter_valores_unicos table coluna ⊆ table.map (fun row => row coluna) ∧
    "" ∉ obter_valores_unicos table coluna ∧
    (obter_valores_unicos table coluna).Sorted (fun a b => a ≤ b) := by
  unfold obter_valores_unicos sqlDistinctNonEmptySorted
  have hperm := List.perm_insertionSort (fun a b : String => a.data ≤ b.data)
    ((table.map (fun row => row coluna)).filter (fun v => v ≠ "")).dedup
  refine ⟨?_, ?_, ?_, ?_⟩
  · exact hperm.nodup_iff.mpr (List.nodup_dedup _)
  · intro v hv
    have hm := hperm.mem_iff.mp hv
    rw [List.mem_dedup, List.mem_filter] at hm
    exact hm.1
  · intro hv
    have hm := hperm.mem_iff.mp hv
    rw [List.mem_dedup, List.mem_filter] at hm
    simp at hm
  · haveI : IsTotal String (fun a b : String => a.data ≤ b.data) :=
      ⟨fun a b => le_total a.data b.data⟩
    haveI : IsTrans String (fun a b : String => a.data ≤ b.data) :=
      ⟨fun _ _ _ h1 h2 => le_trans h1 h2⟩
    have hs := List.sorted_insertionSort (fun a b : String => a.data ≤ b.data)
      ((table.map (fun row => row coluna)).filter (fun v => v ≠ "")).dedup
    exact hs.imp (fun h => String.le_iff_toList_le.mpr h)

theorem obter_valores_unicos_spec_witness :
    obter_valores_unicos [fun _ => "b", fun _ => "", fun _ => "a"] "Department" =
      ["a", "b"] ∧
    ((obter_valores_unicos [fun _ => "b", fun _ => "", fun _ => "a"] "Department").Nodup ∧
    obter_valores_unicos [fun _ => "b", fun _ => "", fun _ => "a"] "Department" ⊆
      ([fun _ => "b", fun _ => "", fun _ => "a"] : List (String → String)).map
        (fun row => row "Department") ∧
    "" ∉ obter_valores_unicos [fun _ => "b", fun _ => "", fun _ => "a"] "Department" ∧
    (obter_valores_unicos [fun _ => "b", fun _ => "", fun _ => "a"] "Department").Sorted
      (fun a b => a ≤ b)) :=
  ⟨by decide, obter_valores_unicos_spec [fun _ => "b", fun _ => "", fun _ => "a"] "Department"⟩

end MetObjects
